import Mathlib

/-!
Verification development for the pre-screening interview service.

The definitions below are a shallow embedding of the Python source:

* `src/models/medical.py` — the `InterviewSession` / `QuestionAnswer` data
  model and the pydantic validation on `AnswerSubmission`;
* `src/routers/medical.py` — `start_medical_interview` and
  `submit_patient_answer` (first-visit interview);
* `src/routers/followup.py` — `start_followup_interview` and
  `submit_followup_answer` (follow-up interview);
* `src/services/department_service.py` — `find_matching_department`,
  `find_doctor_by_name`, `get_doctors_by_department` and
  `get_doctor_recommendations`.

Python strings are modelled as Lean `String`, with the handful of `str`
methods the source uses (`lower`, `strip`, `startswith`, `in`, `len`)
re-implemented over the underlying character list so that every definition
evaluates by kernel reduction.  The AI question generator is an external
collaborator: a call is modelled by an oracle argument `gen : Option String`
(`none` = the call raised or the expert client was never initialised, in
which case the router substitutes its fixed fallback text; `some q` = the
call produced question text `q`; a dict result missing the `question` key
behaves exactly like `some` of the router's default text, so no generality
is lost).  Timestamps (`datetime.now().isoformat()`) are an opaque `now`
argument.  The GPT response-id bookkeeping fields and the reasoning-token
counters are opaque pass-through data touched by no claim and are omitted
from the session record.
-/

/-- Lower-case an ASCII character, as Python `str.lower` does on the
alphabets appearing in the source's keyword tables and messages. -/
def lowerChar (c : Char) : Char :=
  if 65 ≤ c.toNat ∧ c.toNat ≤ 90 then Char.ofNat (c.toNat + 32) else c

/-- Python `s.lower()`. -/
def pyLower (s : String) : String := ⟨s.data.map lowerChar⟩

/-- Whitespace characters removed by Python `str.strip()`. -/
def isSpaceChar (c : Char) : Bool :=
  c.toNat == 32 || c.toNat == 9 || c.toNat == 10 || c.toNat == 13 ||
    c.toNat == 11 || c.toNat == 12

/-- Python `s.strip()`. -/
def pyTrim (s : String) : String :=
  ⟨((s.data.dropWhile isSpaceChar).reverse.dropWhile isSpaceChar).reverse⟩

/-- List prefix test (executable). -/
def listPrefix : List Char → List Char → Bool
  | [], _ => true
  | _ :: _, [] => false
  | a :: as, b :: bs => a == b && listPrefix as bs

/-- List infix test (executable). -/
def listInfix (needle : List Char) : List Char → Bool
  | [] => listPrefix needle []
  | c :: rest => listPrefix needle (c :: rest) || listInfix needle rest

/-- Python `needle in hay` on strings. -/
def strContains (hay needle : String) : Bool := listInfix needle.data hay.data

/-- Python `s.startswith(pre)`. -/
def pyStartsWith (s pre : String) : Bool := listPrefix pre.data s.data

/-- Python `len(s)`. -/
def pyLen (s : String) : Nat := s.data.length

/-- The apostrophe character, built explicitly. -/
def apost : String := ⟨[Char.ofNat 39]⟩

/-- The uncertainty phrase `don't know` from the routers. -/
def dont_know_phrase : String := "don" ++ apost ++ "t know"

/-- models/medical.py `InterviewStatus`. -/
inductive InterviewStatus where
  | active
  | completed
  | aborted
deriving DecidableEq, Repr

/-- models/medical.py `QuestionAnswer`. -/
structure QuestionAnswer where
  question : String
  answer : String
  timestamp : String
deriving DecidableEq, Repr

/-- models/medical.py `InterviewSession` (response-id / reasoning-token
pass-through fields omitted; no claim mentions them). -/
structure InterviewSession where
  session_id : String
  patient_id : String
  status : InterviewStatus
  conversation_history : List QuestionAnswer
  question_number : Nat
  unknown_count : Nat
  max_questions : Nat
  max_unknowns : Nat
  created_at : String
  updated_at : String
  last_question_asked : Option String
deriving DecidableEq, Repr

/-- The progress dict plus the top-level fields of `AnswerResponse`. -/
structure AnswerOutcome where
  success : Bool
  message : String
  next_question : Option String
  question_number : Nat
  current_question : Nat
  max_questions : Nat
  unknown_count : Nat
  max_unknowns : Nat
  completion_percent : ℚ
  interview_complete : Bool
deriving DecidableEq, Repr

/-- The progress dict plus the top-level fields of `QuestionResponse`. -/
structure QuestionOutcome where
  success : Bool
  question : String
  question_number : Nat
  current_question : Nat
  max_questions : Nat
  unknown_count : Nat
  max_unknowns : Nat
  completion_percent : ℚ
  interview_complete : Bool
deriving DecidableEq, Repr

/-- The failure modes of submit-answer visible to a claim: the pydantic
`min_length=1` rejection on `AnswerSubmission.answer` and the HTTP 400 on a
non-ACTIVE session. -/
inductive SubmitError where
  | validationError
  | invalidState
deriving DecidableEq, Repr

/-- Projection from `Except` used to state concrete evaluations. -/
def exceptOk {ε α : Type} : Except ε α → Option α
  | .ok a => some a
  | .error _ => none

/-- routers/medical.py line 184 and routers/followup.py line 290: bump the
unknown counter when the answer contains an uncertainty phrase. -/
def recordUnknown (uc : Nat) (answer : String) : Nat :=
  if strContains (pyLower answer) dont_know_phrase ||
      strContains (pyLower answer) "not sure" then uc + 1 else uc

/-- routers/medical.py line 172: fallback question text used to attribute an
answer when no previous question was recorded. -/
def medicalCurrentQuestion (s : InterviewSession) : String :=
  s.last_question_asked.getD "What is your main health concern today?"

/-- routers/followup.py line 281: fallback question text for attribution. -/
def followupCurrentQuestion (s : InterviewSession) : String :=
  s.last_question_asked.getD "How are you feeling since your last visit?"

/-- The transcript entry appended by `submit_patient_answer`. -/
def recordedQAM (s : InterviewSession) (answer now : String) : QuestionAnswer :=
  ⟨medicalCurrentQuestion s, pyTrim answer, now⟩

/-- The transcript entry appended by `submit_followup_answer`. -/
def recordedQAF (s : InterviewSession) (answer now : String) : QuestionAnswer :=
  ⟨followupCurrentQuestion s, pyTrim answer, now⟩

/-- routers/followup.py line 300: the transcript already covers treatment. -/
def hasTreatmentInfo (hist : List QuestionAnswer) : Bool :=
  hist.any fun qa =>
    strContains (pyLower qa.question) "medic" ||
      strContains (pyLower qa.question) "treatment"

/-- routers/followup.py line 301: the transcript already covers symptoms. -/
def hasSymptomInfo (hist : List QuestionAnswer) : Bool :=
  hist.any fun qa =>
    strContains (pyLower qa.question) "feel" ||
      strContains (pyLower qa.question) "symptom"

/-- Completion-branch payload shared by the two completion returns of
`submit_patient_answer` (lines 199–214 and 263–278). -/
def completionOutcomeM (s : InterviewSession) (msg : String) : AnswerOutcome :=
  { success := true, message := msg, next_question := none,
    question_number := s.question_number, current_question := s.question_number,
    max_questions := s.max_questions, unknown_count := s.unknown_count,
    max_unknowns := s.max_unknowns, completion_percent := 100,
    interview_complete := true }

/-- Continuation payload of `submit_patient_answer` (lines 282–303). -/
def continuationOutcomeM (s : InterviewSession) (q : String) : AnswerOutcome :=
  { success := true, message := "Answer recorded successfully",
    next_question := some q, question_number := s.question_number,
    current_question := s.question_number, max_questions := s.max_questions,
    unknown_count := s.unknown_count, max_unknowns := s.max_unknowns,
    completion_percent :=
      min ((s.question_number : ℚ) / (s.max_questions : ℚ) * 100) 100,
    interview_complete := false }

/-- routers/medical.py `submit_patient_answer` (lines 140–306), composed with
the pydantic validation of `AnswerSubmission` (models/medical.py line 58,
`min_length=1` on the raw answer), which runs before the endpoint body.  The
extra `Bool` in the result records whether the question generator was
invoked on this call. -/
def submitMedical (s : InterviewSession) (answer : String) (gen : Option String)
    (now : String) : Except SubmitError (InterviewSession × AnswerOutcome × Bool) :=
  if pyLen answer < 1 then .error .validationError
  else if s.status ≠ InterviewStatus.active then .error .invalidState
  else
    let hist := s.conversation_history ++ [recordedQAM s answer now]
    let uc := recordUnknown s.unknown_count answer
    if s.question_number ≥ s.max_questions ∨ uc ≥ s.max_unknowns then
      let s1 : InterviewSession :=
        { s with conversation_history := hist, unknown_count := uc,
                 status := InterviewStatus.completed, updated_at := now }
      .ok (s1, completionOutcomeM s1 "Interview completed. Ready for assessment.", false)
    else
      let next_question := gen.getD "Can you tell me more about your symptoms?"
      let last := match gen with
        | some q => some q
        | none => s.last_question_asked
      if strContains next_question "ASSESSMENT_READY" then
        let s2 : InterviewSession :=
          { s with conversation_history := hist, unknown_count := uc,
                   question_number := s.question_number + 1,
                   last_question_asked := last,
                   status := InterviewStatus.completed, updated_at := now }
        .ok (s2, completionOutcomeM s2
          "Medical expert has sufficient information for assessment.", true)
      else
        let s3 : InterviewSession :=
          { s with conversation_history := hist, unknown_count := uc,
                   question_number := s.question_number + 1,
                   last_question_asked := last, updated_at := now }
        .ok (s3, continuationOutcomeM s3 next_question, true)

/-- Completion payload of `submit_followup_answer` (lines 313–328); the
progress bounds are the literals 6 and 3 from the source. -/
def completionOutcomeF (s : InterviewSession) : AnswerOutcome :=
  { success := true, message := "Follow-up interview completed. Ready for assessment.",
    next_question := none, question_number := s.question_number,
    current_question := s.question_number, max_questions := 6,
    unknown_count := s.unknown_count, max_unknowns := 3,
    completion_percent := 100, interview_complete := true }

/-- Continuation payload of `submit_followup_answer` (lines 386–401). -/
def continuationOutcomeF (s : InterviewSession) (q : String) : AnswerOutcome :=
  { success := true, message := "Answer recorded successfully",
    next_question := some q, question_number := s.question_number,
    current_question := s.question_number, max_questions := 6,
    unknown_count := s.unknown_count, max_unknowns := 3,
    completion_percent := min ((s.question_number : ℚ) / 6 * 100) 100,
    interview_complete := false }

/-- routers/followup.py `submit_followup_answer` (lines 252–401), composed
with the pydantic validation of `AnswerSubmission`.  The stop conditions use
the literals 6, 4 and 3 exactly as the source does. -/
def submitFollowup (s : InterviewSession) (answer : String) (gen : Option String)
    (now : String) : Except SubmitError (InterviewSession × AnswerOutcome × Bool) :=
  if pyLen answer < 1 then .error .validationError
  else if s.status ≠ InterviewStatus.active then .error .invalidState
  else
    let hist := s.conversation_history ++ [recordedQAF s answer now]
    let uc := recordUnknown s.unknown_count answer
    let max_questions_reached := s.question_number ≥ 6
    let early_completion_possible := s.question_number ≥ 4
    let too_many_unknowns := uc ≥ 3
    let early_completion_ready :=
      early_completion_possible ∧ hasTreatmentInfo hist = true ∧ hasSymptomInfo hist = true
    if max_questions_reached ∨ too_many_unknowns ∨ early_completion_ready then
      let s1 : InterviewSession :=
        { s with conversation_history := hist, unknown_count := uc,
                 status := InterviewStatus.completed, updated_at := now }
      .ok (s1, completionOutcomeF s1, false)
    else
      let next_question := gen.getD
        ("Can you tell me more about how you" ++ apost ++ "ve been feeling?")
      let s3 : InterviewSession :=
        { s with conversation_history := hist, unknown_count := uc,
                 question_number := s.question_number + 1,
                 last_question_asked := some next_question, updated_at := now }
      .ok (s3, continuationOutcomeF s3 next_question, true)

/-- routers/medical.py `start_medical_interview` (lines 34–132): the session
is created and stored before the generator is consulted; a generator failure
(or an uninitialised expert client) substitutes the fixed opening question
and leaves `last_question_asked` unset. -/
def startMedical (session_id patient_id : String) (gen : Option String)
    (now : String) : InterviewSession × QuestionOutcome :=
  let base : InterviewSession :=
    { session_id := session_id, patient_id := patient_id,
      status := InterviewStatus.active, conversation_history := [],
      question_number := 1, unknown_count := 0, max_questions := 6,
      max_unknowns := 2, created_at := now, updated_at := now,
      last_question_asked := none }
  let outcome : String → QuestionOutcome := fun q =>
    { success := true, question := q, question_number := 1,
      current_question := 1, max_questions := 6, unknown_count := 0,
      max_unknowns := 2, completion_percent := 0, interview_complete := false }
  match gen with
  | some q => ({ base with last_question_asked := some q }, outcome q)
  | none =>
    (base, outcome "What is your main health concern or symptom that brought you here today?")

/-- routers/followup.py `start_followup_interview` (lines 28–146): like the
first-visit start but with `max_unknowns = 3`, its own fallback opening
question, and `last_question_asked` recorded in both generator outcomes. -/
def startFollowup (session_id patient_id : String) (gen : Option String)
    (now : String) : InterviewSession × QuestionOutcome :=
  let q := gen.getD "How are you feeling since your last visit?"
  let base : InterviewSession :=
    { session_id := session_id, patient_id := patient_id,
      status := InterviewStatus.active, conversation_history := [],
      question_number := 1, unknown_count := 0, max_questions := 6,
      max_unknowns := 3, created_at := now, updated_at := now,
      last_question_asked := some q }
  let outcome : QuestionOutcome :=
    { success := true, question := q, question_number := 1,
      current_question := 1, max_questions := 6, unknown_count := 0,
      max_unknowns := 3, completion_percent := 0, interview_complete := false }
  (base, outcome)

/-- A batch of first-visit submit-answer calls against one session: failed
calls leave the stored session untouched; the `Bool` reports whether any
call in the batch invoked the question generator. -/
def runM (s : InterviewSession) :
    List (String × Option String × String) → InterviewSession × Bool
  | [] => (s, false)
  | c :: rest =>
    match submitMedical s c.1 c.2.1 c.2.2 with
    | .ok (s1, _, b) =>
      let r := runM s1 rest
      (r.1, b || r.2)
    | .error _ => runM s rest

/-- A batch of follow-up submit-answer calls against one session. -/
def runF (s : InterviewSession) :
    List (String × Option String × String) → InterviewSession × Bool
  | [] => (s, false)
  | c :: rest =>
    match submitFollowup s c.1 c.2.1 c.2.2 with
    | .ok (s1, _, b) =>
      let r := runF s1 rest
      (r.1, b || r.2)
    | .error _ => runF s rest

/-- First-visit sessions reachable through the router operations: created by
`start_medical_interview` and mutated only by `submit_patient_answer`. -/
inductive ReachableM : InterviewSession → Prop where
  | start (sid pid : String) (gen : Option String) (now : String) :
      ReachableM (startMedical sid pid gen now).1
  | step (s : InterviewSession) (a : String) (gen : Option String) (now : String)
      (s1 : InterviewSession) (o : AnswerOutcome) (b : Bool) :
      ReachableM s → submitMedical s a gen now = .ok (s1, o, b) → ReachableM s1

/-- Follow-up sessions reachable through the router operations. -/
inductive ReachableF : InterviewSession → Prop where
  | start (sid pid : String) (gen : Option String) (now : String) :
      ReachableF (startFollowup sid pid gen now).1
  | step (s : InterviewSession) (a : String) (gen : Option String) (now : String)
      (s1 : InterviewSession) (o : AnswerOutcome) (b : Bool) :
      ReachableF s → submitFollowup s a gen now = .ok (s1, o, b) → ReachableF s1

/-- services/department_service.py `Doctor`. -/
structure Doctor where
  id : String
  name : String
  department : String
deriving DecidableEq, Repr

/-- services/department_service.py: the result dict of
`get_doctor_recommendations`. -/
structure RecommendationResult where
  ai_suggested_department : String
  department_available : Bool
  matched_department : Option String
  recommended_doctors : List Doctor
  patient_chosen_doctor : Option String
  patient_doctor_available : Bool
  patient_doctor_info : Option Doctor
  recommendation_type : String
  message : String
deriving DecidableEq, Repr

/-- services/department_service.py lines 77–96: the fixed synonym table, in
source order (Python dicts iterate in insertion order). -/
def specialty_mappings : List (String × String) :=
  [("orthopedic", "Orthopedics"), ("orthopedics", "Orthopedics"),
   ("ortho", "Orthopedics"), ("cardiac", "Cardiology"),
   ("cardiology", "Cardiology"), ("heart", "Cardiology"),
   ("diabetes", "Diabetologist"), ("diabetologist", "Diabetologist"),
   ("endocrine", "Diabetologist"), ("pediatric", "Pediatrics"),
   ("pediatrics", "Pediatrics"), ("children", "Pediatrics"),
   ("urology", "Urology"), ("kidney", "Urology"),
   ("general medicine", "General Medicine"), ("general", "General Medicine"),
   ("internal medicine", "General Medicine"), ("internal", "General Medicine")]

/-- The department keys of `self.departments`: first-occurrence order of the
departments of the loaded roster, as the CSV loader builds the dict. -/
def deptKeys (roster : List Doctor) : List String :=
  roster.foldl (fun acc d => if acc.contains d.department then acc else acc ++ [d.department]) []

/-- services/department_service.py `get_doctors_by_department`. -/
def get_doctors_by_department (roster : List Doctor) (department : String) : List Doctor :=
  roster.filter fun d => d.department == department

/-- services/department_service.py `find_doctor_by_name` (lines 54–59). -/
def find_doctor_by_name (roster : List Doctor) (doctor_name : String) : Option Doctor :=
  roster.find? fun d => pyLower d.name == pyLower doctor_name

/-- services/department_service.py `find_matching_department` (lines 67–117),
with `depts` standing for `self.departments.keys()` in insertion order. -/
def find_matching_department (depts : List String) (ai_suggested_dept : String) : Option String :=
  match depts.find? (fun d => pyLower d == pyLower ai_suggested_dept) with
  | some dept => some dept
  | none =>
    match
      (match specialty_mappings.find? (fun p => p.1 == pyLower ai_suggested_dept) with
        | some p => if depts.contains p.2 then some p.2 else none
        | none => none) with
    | some dept => some dept
    | none =>
      match specialty_mappings.find?
          (fun p => strContains (pyLower ai_suggested_dept) p.1 && depts.contains p.2) with
      | some p => some p.2
      | none =>
        match depts.find? (fun d =>
            pyStartsWith (pyLower ai_suggested_dept) (pyLower d) &&
              decide (pyLen (pyLower ai_suggested_dept) - pyLen (pyLower d) ≤ 3)) with
        | some dept => some dept
        | none => none

/-- services/department_service.py `get_doctor_recommendations`
(lines 119–184).  `patient_chosen_doctor = some ""` reproduces Python's
falsy empty string: the doctor cross-check is skipped. -/
def get_doctor_recommendations (roster : List Doctor) (ai_suggested_dept : String)
    (patient_chosen_doctor : Option String) : RecommendationResult :=
  let base : RecommendationResult :=
    { ai_suggested_department := ai_suggested_dept, department_available := false,
      matched_department := none, recommended_doctors := [],
      patient_chosen_doctor := patient_chosen_doctor,
      patient_doctor_available := false, patient_doctor_info := none,
      recommendation_type := "hospital_reception",
      message := "Please visit hospital reception for general consultation" }
  let matched_dept := find_matching_department (deptKeys roster) ai_suggested_dept
  let r1 : RecommendationResult :=
    match matched_dept with
    | some md =>
      { base with department_available := true, matched_department := some md,
                  recommended_doctors := get_doctors_by_department roster md,
                  recommendation_type := "ai_department",
                  message := "Proceed to " ++ md ++ " department" }
    | none =>
      { base with department_available := false, matched_department := none,
                  recommended_doctors := [],
                  recommendation_type := "reception_referral",
                  message := "Please visit hospital reception" }
  match patient_chosen_doctor with
  | none => r1
  | some chosen =>
    if pyLen chosen = 0 then r1
    else
      match find_doctor_by_name roster chosen with
      | none => r1
      | some pd =>
        let r2 : RecommendationResult :=
          { r1 with patient_doctor_available := true, patient_doctor_info := some pd }
        match matched_dept with
        | some md =>
          if pd.department = md then
            { r2 with recommendation_type := "perfect_match",
                      message := "Excellent choice! Proceed to Dr. " ++ pd.name ++
                        " in " ++ pd.department }
          else
            { r2 with recommendation_type := "conflict_resolution",
                      message := "Two options available: 1) Your choice: Dr. " ++
                        pd.name ++ " (" ++ pd.department ++
                        ") 2) AI recommendation: " ++ md ++ " department" }
        | none =>
          { r2 with recommendation_type := "patient_choice_only",
                    message := "Proceed to your chosen doctor: Dr. " ++ pd.name ++
                      " in " ++ pd.department }

/-- Modelled from the claim wording for C4: resolution chain in which step 2
is an unguarded exact lookup in the synonym table — the first step that
matches wins, and step 2 "matches" as soon as the lowered input is a key of
the table. -/
def match_department_claim (depts : List String) (ai_suggested_dept : String) : Option String :=
  let step1 : Option String :=
    depts.find? fun d => pyLower d == pyLower ai_suggested_dept
  let step2 : Option String :=
    (specialty_mappings.find? fun p => p.1 == pyLower ai_suggested_dept).map Prod.snd
  let step3 : Option String :=
    (specialty_mappings.find? fun p =>
      strContains (pyLower ai_suggested_dept) p.1 && depts.contains p.2).map Prod.snd
  let step4 : Option String :=
    depts.find? fun d =>
      pyStartsWith (pyLower ai_suggested_dept) (pyLower d) &&
        decide (pyLen (pyLower ai_suggested_dept) - pyLen (pyLower d) ≤ 3)
  step1.orElse fun _ => step2.orElse fun _ => step3.orElse fun _ => step4

/-- The amended resolution order for C4: as the claim states it, except that
step 2 only matches when the synonym table's canonical department is present
in the roster, falling through to step 3 otherwise. -/
def match_department_amended (depts : List String) (ai_suggested_dept : String) : Option String :=
  let step1 : Option String :=
    depts.find? fun d => pyLower d == pyLower ai_suggested_dept
  let step2 : Option String :=
    match specialty_mappings.find? fun p => p.1 == pyLower ai_suggested_dept with
    | some p => if depts.contains p.2 then some p.2 else none
    | none => none
  let step3 : Option String :=
    (specialty_mappings.find? fun p =>
      strContains (pyLower ai_suggested_dept) p.1 && depts.contains p.2).map Prod.snd
  let step4 : Option String :=
    depts.find? fun d =>
      pyStartsWith (pyLower ai_suggested_dept) (pyLower d) &&
        decide (pyLen (pyLower ai_suggested_dept) - pyLen (pyLower d) ≤ 3)
  step1.orElse fun _ => step2.orElse fun _ => step3.orElse fun _ => step4

/-- Placeholder session used only as a `getD` default when projecting
concrete submit results. -/
def blankSession : InterviewSession :=
  { session_id := "", patient_id := "", status := InterviewStatus.aborted,
    conversation_history := [], question_number := 0, unknown_count := 0,
    max_questions := 0, max_unknowns := 0, created_at := "", updated_at := "",
    last_question_asked := none }

/-- Placeholder outcome used only as a `getD` default. -/
def blankOutcome : AnswerOutcome :=
  { success := false, message := "", next_question := none, question_number := 0,
    current_question := 0, max_questions := 0, unknown_count := 0,
    max_unknowns := 0, completion_percent := 0, interview_complete := false }

/-- Project a successful submit result, defaulting to the placeholders. -/
def okTrip (r : Except SubmitError (InterviewSession × AnswerOutcome × Bool)) :
    InterviewSession × AnswerOutcome × Bool :=
  (exceptOk r).getD (blankSession, blankOutcome, false)

/-- A first-visit session whose question budget is exhausted. -/
def c1SessM : InterviewSession :=
  { session_id := "c1m", patient_id := "p", status := InterviewStatus.active,
    conversation_history := [], question_number := 6, unknown_count := 0,
    max_questions := 6, max_unknowns := 2, created_at := "t0", updated_at := "t0",
    last_question_asked := some "Q6" }

/-- A follow-up session whose uncertainty budget is exhausted. -/
def c1SessF : InterviewSession :=
  { session_id := "c1f", patient_id := "p", status := InterviewStatus.active,
    conversation_history := [], question_number := 2, unknown_count := 3,
    max_questions := 6, max_unknowns := 3, created_at := "t0", updated_at := "t0",
    last_question_asked := some "Q2" }

/-- Result of submitting a final answer on `c1SessM`. -/
def c1TripM : InterviewSession × AnswerOutcome × Bool :=
  okTrip (submitMedical c1SessM "fine" none "t1")

/-- Result of submitting an answer on `c1SessF`. -/
def c1TripF : InterviewSession × AnswerOutcome × Bool :=
  okTrip (submitFollowup c1SessF "fine" none "t1")

/-- A freshly started first-visit session. -/
def c2SessM : InterviewSession := (startMedical "c2m" "p" (some "Q1") "t0").1

/-- A freshly started follow-up session. -/
def c2SessF : InterviewSession := (startFollowup "c2f" "p" (some "F1") "t0").1

/-- Result of answering the first first-visit question. -/
def c2TripM : InterviewSession × AnswerOutcome × Bool :=
  okTrip (submitMedical c2SessM "I have a headache" (some "Q2") "t1")

/-- Result of answering the first follow-up question. -/
def c2TripF : InterviewSession × AnswerOutcome × Bool :=
  okTrip (submitFollowup c2SessF "I have a headache" (some "F2") "t1")

/-- Two-doctor roster: Dr. Alice in Cardiology, Dr. Bob in Orthopedics. -/
def rosterAB : List Doctor :=
  [{ id := "1", name := "Alice", department := "Cardiology" },
   { id := "2", name := "Bob", department := "Orthopedics" }]

/-- One-doctor roster: Dr. Alice in Cardiology. -/
def rosterA : List Doctor :=
  [{ id := "1", name := "Alice", department := "Cardiology" }]

/-- Reconciliation where the patient chose Dr. Alice (Cardiology) but the AI
suggests Orthopedics: the conflict case. -/
def c3Conflict : RecommendationResult :=
  get_doctor_recommendations rosterAB "Orthopedics" (some "Alice")

/-- A follow-up session at question 4 whose transcript has a medication
question and a feeling question. -/
def c5SessF : InterviewSession :=
  { session_id := "c5f", patient_id := "p", status := InterviewStatus.active,
    conversation_history :=
      [{ question := "Are you taking your medication?", answer := "yes", timestamp := "t1" },
       { question := "How do you feel today?", answer := "ok", timestamp := "t2" },
       { question := "Anything else?", answer := "no", timestamp := "t3" }],
    question_number := 4, unknown_count := 0, max_questions := 6,
    max_unknowns := 3, created_at := "t0", updated_at := "t0",
    last_question_asked := some "Q4" }

/-- The same transcript situation on a first-visit session. -/
def c5SessM : InterviewSession :=
  { c5SessF with session_id := "c5m", max_unknowns := 2 }

/-- Result of answering on `c5SessF`. -/
def c5TripF : InterviewSession × AnswerOutcome × Bool :=
  okTrip (submitFollowup c5SessF "better" (some "Q5") "t4")

/-- Result of answering on `c5SessM`. -/
def c5TripM : InterviewSession × AnswerOutcome × Bool :=
  okTrip (submitMedical c5SessM "better" (some "Q5") "t4")

/-- A first-visit session mid-interview used for the sentinel claim. -/
def c6Sess : InterviewSession :=
  { session_id := "c6", patient_id := "p", status := InterviewStatus.active,
    conversation_history := [], question_number := 2, unknown_count := 0,
    max_questions := 6, max_unknowns := 2, created_at := "t0", updated_at := "t0",
    last_question_asked := some "Q2" }

/-- Result of a submit whose generated question carries the sentinel. -/
def c6Trip : InterviewSession × AnswerOutcome × Bool :=
  okTrip (submitMedical c6Sess "ok" (some "blah ASSESSMENT_READY blah") "t1")

/-- Reconciliation with an unmatchable AI department and no chosen doctor. -/
def c7Reception : RecommendationResult :=
  get_doctor_recommendations rosterA "Oncology" none

/-- Reconciliation with an unmatchable AI department while the patient chose
Dr. Alice, who is in the roster. -/
def c7Choice : RecommendationResult :=
  get_doctor_recommendations rosterA "Oncology" (some "Alice")

/-- An ACTIVE session used for the validation claim. -/
def c9Sess : InterviewSession :=
  { session_id := "c9", patient_id := "p", status := InterviewStatus.active,
    conversation_history := [], question_number := 1, unknown_count := 0,
    max_questions := 6, max_unknowns := 2, created_at := "t0", updated_at := "t0",
    last_question_asked := some "Q1" }

/-- Result of submitting a single-space answer on an ACTIVE session. -/
def c9Trip : InterviewSession × AnswerOutcome × Bool :=
  okTrip (submitMedical c9Sess " " (some "Q2") "t1")

/-- A freshly started first-visit session with a failed generator call. -/
def c10Sess : InterviewSession := (startMedical "c10" "p" none "t0").1

/-- Result of answering with both uncertainty phrases at once. -/
def c10Trip : InterviewSession × AnswerOutcome × Bool :=
  okTrip (submitMedical c10Sess ("I don" ++ apost ++ "t know, not sure") (some "Q2") "t1")

/-- The `c9Sess` session after completion, for the invalid-state case. -/
def c9SessDone : InterviewSession := { c9Sess with status := InterviewStatus.completed }

/-- The unknown counter never decreases when an answer is classified. -/
theorem recordUnknown_ge (uc : Nat) (a : String) : uc ≤ recordUnknown uc a := by
  unfold recordUnknown
  split <;> omega

/-- The unknown counter grows by at most one per classified answer. -/
theorem recordUnknown_le_succ (uc : Nat) (a : String) : recordUnknown uc a ≤ uc + 1 := by
  unfold recordUnknown
  split <;> omega

/-- A successful first-visit submit requires a valid answer on an ACTIVE
session, appends exactly the recorded entry, stores the classified unknown
counter, and keeps the policy bounds. -/
theorem submitMedical_ok_shape (s : InterviewSession) (a : String)
    (gen : Option String) (now : String) (s1 : InterviewSession)
    (o : AnswerOutcome) (b : Bool)
    (h : submitMedical s a gen now = .ok (s1, o, b)) :
    1 ≤ pyLen a ∧ s.status = InterviewStatus.active ∧
      s1.conversation_history = s.conversation_history ++ [recordedQAM s a now] ∧
      s1.unknown_count = recordUnknown s.unknown_count a ∧
      s1.max_questions = s.max_questions ∧ s1.max_unknowns = s.max_unknowns := by
  simp only [submitMedical] at h
  split at h
  · simp at h
  next hlen =>
    split at h
    · simp at h
    next hst =>
      refine ⟨by omega, by simpa using hst, ?_⟩
      split at h
      · obtain ⟨h1, h2, h3⟩ := by simpa using h
        subst h1
        simp
      · split at h <;>
        · obtain ⟨h1, h2, h3⟩ := by simpa using h
          subst h1
          simp

/-- A successful follow-up submit requires a valid answer on an ACTIVE
session, appends exactly the recorded entry, stores the classified unknown
counter, and keeps the policy bounds. -/
theorem submitFollowup_ok_shape (s : InterviewSession) (a : String)
    (gen : Option String) (now : String) (s1 : InterviewSession)
    (o : AnswerOutcome) (b : Bool)
    (h : submitFollowup s a gen now = .ok (s1, o, b)) :
    1 ≤ pyLen a ∧ s.status = InterviewStatus.active ∧
      s1.conversation_history = s.conversation_history ++ [recordedQAF s a now] ∧
      s1.unknown_count = recordUnknown s.unknown_count a ∧
      s1.max_questions = s.max_questions ∧ s1.max_unknowns = s.max_unknowns := by
  simp only [submitFollowup] at h
  split at h
  · simp at h
  next hlen =>
    split at h
    · simp at h
    next hst =>
      refine ⟨by omega, by simpa using hst, ?_⟩
      split at h <;>
      · obtain ⟨h1, h2, h3⟩ := by simpa using h
        subst h1
        simp

/-- If a stop threshold holds once the answer is classified, a first-visit
submit lands in the completion branch. -/
theorem submitMedical_threshold (s : InterviewSession) (a : String)
    (gen : Option String) (now : String) (s1 : InterviewSession)
    (o : AnswerOutcome) (b : Bool)
    (h : submitMedical s a gen now = .ok (s1, o, b))
    (hth : s.max_questions ≤ s.question_number ∨
      s.max_unknowns ≤ recordUnknown s.unknown_count a) :
    s1.status = InterviewStatus.completed ∧
      o = completionOutcomeM s1 "Interview completed. Ready for assessment." ∧
      b = false ∧ s1.question_number = s.question_number := by
  revert hth
  simp only [submitMedical] at h
  split at h
  · intro _
    simp at h
  split at h
  · intro _
    simp at h
  split at h
  · intro _
    obtain ⟨h1, h2, h3⟩ := by simpa using h
    subst h1 h2 h3
    simp
  next hcond =>
    intro hth
    exact absurd hth hcond

/-- If a stop threshold holds once the answer is classified, a follow-up
submit lands in the completion branch. -/
theorem submitFollowup_threshold (s : InterviewSession) (a : String)
    (gen : Option String) (now : String) (s1 : InterviewSession)
    (o : AnswerOutcome) (b : Bool)
    (h : submitFollowup s a gen now = .ok (s1, o, b))
    (hth : 6 ≤ s.question_number ∨ 3 ≤ recordUnknown s.unknown_count a) :
    s1.status = InterviewStatus.completed ∧ o = completionOutcomeF s1 ∧
      b = false ∧ s1.question_number = s.question_number := by
  revert hth
  simp only [submitFollowup] at h
  split at h
  · intro _
    simp at h
  split at h
  · intro _
    simp at h
  split at h
  · intro _
    obtain ⟨h1, h2, h3⟩ := by simpa using h
    subst h1 h2 h3
    simp
  next hcond =>
    intro hth
    refine absurd ?_ hcond
    rcases hth with hq | hu
    · exact Or.inl hq
    · exact Or.inr (Or.inl hu)

/-- Once a first-visit session has hit a stop threshold or left the ACTIVE
state, a submit call cannot invoke the generator and the session stays in
that region. -/
theorem submitMedical_stopInv (s : InterviewSession) (a : String)
    (gen : Option String) (now : String) (s1 : InterviewSession)
    (o : AnswerOutcome) (b : Bool)
    (h : submitMedical s a gen now = .ok (s1, o, b))
    (hinv : s.max_questions ≤ s.question_number ∨
      s.max_unknowns ≤ s.unknown_count ∨ s.status ≠ InterviewStatus.active) :
    b = false ∧ (s1.max_questions ≤ s1.question_number ∨
      s1.max_unknowns ≤ s1.unknown_count ∨ s1.status ≠ InterviewStatus.active) := by
  obtain ⟨-, hact, -, -, -, -⟩ := submitMedical_ok_shape s a gen now s1 o b h
  have hth : s.max_questions ≤ s.question_number ∨
      s.max_unknowns ≤ recordUnknown s.unknown_count a := by
    rcases hinv with hq | hu | hst
    · exact Or.inl hq
    · exact Or.inr (le_trans hu (recordUnknown_ge _ _))
    · exact absurd hact hst
  obtain ⟨hdone, -, hb, -⟩ := submitMedical_threshold s a gen now s1 o b h hth
  exact ⟨hb, Or.inr (Or.inr (by simp [hdone]))⟩

/-- Once a follow-up session has hit a stop threshold or left the ACTIVE
state, a submit call cannot invoke the generator and the session stays in
that region. -/
theorem submitFollowup_stopInv (s : InterviewSession) (a : String)
    (gen : Option String) (now : String) (s1 : InterviewSession)
    (o : AnswerOutcome) (b : Bool)
    (h : submitFollowup s a gen now = .ok (s1, o, b))
    (hinv : 6 ≤ s.question_number ∨ 3 ≤ s.unknown_count ∨
      s.status ≠ InterviewStatus.active) :
    b = false ∧ (6 ≤ s1.question_number ∨ 3 ≤ s1.unknown_count ∨
      s1.status ≠ InterviewStatus.active) := by
  obtain ⟨-, hact, -, -, -, -⟩ := submitFollowup_ok_shape s a gen now s1 o b h
  have hth : 6 ≤ s.question_number ∨ 3 ≤ recordUnknown s.unknown_count a := by
    rcases hinv with hq | hu | hst
    · exact Or.inl hq
    · exact Or.inr (le_trans hu (recordUnknown_ge _ _))
    · exact absurd hact hst
  obtain ⟨hdone, -, hb, -⟩ := submitFollowup_threshold s a gen now s1 o b h hth
  exact ⟨hb, Or.inr (Or.inr (by simp [hdone]))⟩

/-- No call of a first-visit batch generates a question once a stop
threshold holds or the session is no longer ACTIVE. -/
theorem runM_noGen (calls : List (String × Option String × String)) :
    ∀ s : InterviewSession,
      (s.max_questions ≤ s.question_number ∨ s.max_unknowns ≤ s.unknown_count ∨
        s.status ≠ InterviewStatus.active) →
      (runM s calls).2 = false := by
  induction calls with
  | nil => intro s _; simp [runM]
  | cons c rest ih =>
    intro s hinv
    simp only [runM]
    cases hsub : submitMedical s c.1 c.2.1 c.2.2 with
    | error e => simpa using ih s hinv
    | ok trip =>
      obtain ⟨s1, o, b⟩ := trip
      obtain ⟨hb, hinv1⟩ := submitMedical_stopInv s c.1 c.2.1 c.2.2 s1 o b hsub hinv
      simp [hb, ih s1 hinv1]

/-- No call of a follow-up batch generates a question once a stop threshold
holds or the session is no longer ACTIVE. -/
theorem runF_noGen (calls : List (String × Option String × String)) :
    ∀ s : InterviewSession,
      (6 ≤ s.question_number ∨ 3 ≤ s.unknown_count ∨
        s.status ≠ InterviewStatus.active) →
      (runF s calls).2 = false := by
  induction calls with
  | nil => intro s _; simp [runF]
  | cons c rest ih =>
    intro s hinv
    simp only [runF]
    cases hsub : submitFollowup s c.1 c.2.1 c.2.2 with
    | error e => simpa using ih s hinv
    | ok trip =>
      obtain ⟨s1, o, b⟩ := trip
      obtain ⟨hb, hinv1⟩ := submitFollowup_stopInv s c.1 c.2.1 c.2.2 s1 o b hsub hinv
      simp [hb, ih s1 hinv1]

/-- C1: on an ACTIVE session of either kind, a submitted answer after whose
recording `question_number >= max_questions` or
`unknown_count >= max_unknowns` (follow-up bounds 6 and 3 as hardcoded in
the source) completes the interview: status becomes COMPLETED, the outcome
carries no next question and completion_percent = 100, and the question
generator is not invoked; and once either threshold holds, no batch of
subsequent submit-answer calls on that session ever invokes the generator
again. -/
theorem claim_C1_stop_monotonicity :
    (∀ (s : InterviewSession) (a : String) (gen : Option String) (now : String)
        (s1 : InterviewSession) (o : AnswerOutcome) (b : Bool),
      submitMedical s a gen now = .ok (s1, o, b) →
      (s.max_questions ≤ s.question_number ∨
        s.max_unknowns ≤ recordUnknown s.unknown_count a) →
      s1.status = InterviewStatus.completed ∧ o.next_question = none ∧
        o.completion_percent = 100 ∧ o.interview_complete = true ∧ b = false) ∧
    (∀ (s : InterviewSession) (calls : List (String × Option String × String)),
      s.max_questions ≤ s.question_number ∨ s.max_unknowns ≤ s.unknown_count →
      (runM s calls).2 = false) ∧
    (∀ (s : InterviewSession) (a : String) (gen : Option String) (now : String)
        (s1 : InterviewSession) (o : AnswerOutcome) (b : Bool),
      submitFollowup s a gen now = .ok (s1, o, b) →
      (6 ≤ s.question_number ∨ 3 ≤ recordUnknown s.unknown_count a) →
      s1.status = InterviewStatus.completed ∧ o.next_question = none ∧
        o.completion_percent = 100 ∧ o.interview_complete = true ∧ b = false) ∧
    (∀ (s : InterviewSession) (calls : List (String × Option String × String)),
      6 ≤ s.question_number ∨ 3 ≤ s.unknown_count →
      (runF s calls).2 = false) := by
  refine ⟨?_, ?_, ?_, ?_⟩
  · intro s a gen now s1 o b h hth
    obtain ⟨hst, ho, hb, -⟩ := submitMedical_threshold s a gen now s1 o b h hth
    subst ho
    simp [completionOutcomeM, hst, hb]
  · intro s calls hth
    exact runM_noGen calls s (hth.imp id Or.inl)
  · intro s a gen now s1 o b h hth
    obtain ⟨hst, ho, hb, -⟩ := submitFollowup_threshold s a gen now s1 o b h hth
    subst ho
    simp [completionOutcomeF, hst, hb]
  · intro s calls hth
    exact runF_noGen calls s (hth.imp id Or.inl)

/-- Witness for C1 at concrete sessions: a first-visit session with its
question budget spent and a follow-up session with its unknown budget spent
both complete without invoking the generator, and later batches never
generate. -/
theorem claim_C1_witness :
    (c1SessM.max_questions ≤ c1SessM.question_number ∨
      c1SessM.max_unknowns ≤ recordUnknown c1SessM.unknown_count "fine") ∧
    (c1TripM.1.status = InterviewStatus.completed ∧
      c1TripM.2.1.next_question = none ∧ c1TripM.2.1.completion_percent = 100 ∧
      c1TripM.2.1.interview_complete = true ∧ c1TripM.2.2 = false) ∧
    (6 ≤ c1SessF.question_number ∨ 3 ≤ recordUnknown c1SessF.unknown_count "fine") ∧
    (c1TripF.1.status = InterviewStatus.completed ∧
      c1TripF.2.1.next_question = none ∧ c1TripF.2.1.completion_percent = 100 ∧
      c1TripF.2.1.interview_complete = true ∧ c1TripF.2.2 = false) ∧
    (runM c1SessM [("again", none, "t2")]).2 = false ∧
    (runF c1SessF [("again", none, "t2")]).2 = false :=
  ⟨by decide,
   claim_C1_stop_monotonicity.1 c1SessM "fine" none "t1"
     c1TripM.1 c1TripM.2.1 c1TripM.2.2 rfl (by decide),
   by decide,
   claim_C1_stop_monotonicity.2.2.1 c1SessF "fine" none "t1"
     c1TripF.1 c1TripF.2.1 c1TripF.2.2 rfl (by decide),
   claim_C1_stop_monotonicity.2.1 c1SessM [("again", none, "t2")] (by decide),
   claim_C1_stop_monotonicity.2.2.2 c1SessF [("again", none, "t2")] (by decide)⟩

/-- A first-visit submit that leaves the session ACTIVE is the continuation
branch: the transcript grows by the recorded entry and the question counter
advances by one. -/
theorem submitMedical_active (s : InterviewSession) (a : String)
    (gen : Option String) (now : String) (s1 : InterviewSession)
    (o : AnswerOutcome) (b : Bool)
    (h : submitMedical s a gen now = .ok (s1, o, b))
    (hact : s1.status = InterviewStatus.active) :
    s1.question_number = s.question_number + 1 ∧
      s1.conversation_history = s.conversation_history ++ [recordedQAM s a now] ∧
      o = continuationOutcomeM s1 (gen.getD "Can you tell me more about your symptoms?") ∧
      b = true ∧ s.status = InterviewStatus.active := by
  simp only [submitMedical] at h
  split at h
  · simp at h
  split at h
  · simp at h
  next hst =>
    split at h
    · obtain ⟨h1, h2, h3⟩ := by simpa using h
      subst h1
      simp at hact
    split at h
    · obtain ⟨h1, h2, h3⟩ := by simpa using h
      subst h1
      simp at hact
    · obtain ⟨h1, h2, h3⟩ := by simpa using h
      subst h1 h2 h3
      refine ⟨rfl, rfl, rfl, rfl, ?_⟩
      simpa using hst

/-- A follow-up submit that leaves the session ACTIVE is the continuation
branch: the transcript grows by the recorded entry and the question counter
advances by one. -/
theorem submitFollowup_active (s : InterviewSession) (a : String)
    (gen : Option String) (now : String) (s1 : InterviewSession)
    (o : AnswerOutcome) (b : Bool)
    (h : submitFollowup s a gen now = .ok (s1, o, b))
    (hact : s1.status = InterviewStatus.active) :
    s1.question_number = s.question_number + 1 ∧
      s1.conversation_history = s.conversation_history ++ [recordedQAF s a now] ∧
      o = continuationOutcomeF s1
        (gen.getD ("Can you tell me more about how you" ++ apost ++ "ve been feeling?")) ∧
      b = true ∧ s.status = InterviewStatus.active := by
  simp only [submitFollowup] at h
  split at h
  · simp at h
  split at h
  · simp at h
  next hst =>
    split at h
    · obtain ⟨h1, h2, h3⟩ := by simpa using h
      subst h1
      simp at hact
    · obtain ⟨h1, h2, h3⟩ := by simpa using h
      subst h1 h2 h3
      refine ⟨rfl, rfl, rfl, rfl, ?_⟩
      simpa using hst

/-- Reachable ACTIVE first-visit sessions satisfy
`len(transcript) + 1 = question_number`. -/
theorem reachM_len (s : InterviewSession) (h : ReachableM s) :
    s.status = InterviewStatus.active →
      s.conversation_history.length + 1 = s.question_number := by
  induction h with
  | start sid pid gen now =>
    intro _
    cases gen <;> simp [startMedical]
  | step s a gen now s1 o b hr heq ih =>
    intro hact
    obtain ⟨hq, hh, -, -, hsact⟩ := submitMedical_active s a gen now s1 o b heq hact
    rw [hq, hh]
    simp [← ih hsact]

/-- Reachable ACTIVE follow-up sessions satisfy
`len(transcript) + 1 = question_number`. -/
theorem reachF_len (s : InterviewSession) (h : ReachableF s) :
    s.status = InterviewStatus.active →
      s.conversation_history.length + 1 = s.question_number := by
  induction h with
  | start sid pid gen now =>
    intro _
    simp [startFollowup]
  | step s a gen now s1 o b hr heq ih =>
    intro hact
    obtain ⟨hq, hh, -, -, hsact⟩ := submitFollowup_active s a gen now s1 o b heq hact
    rw [hq, hh]
    simp [← ih hsact]

/-- C2: after any successful submit-answer call that leaves a reachable
session (of either kind) ACTIVE, the transcript length equals
`question_number - 1`; the call appended exactly one entry and advanced
`question_number` by exactly one. -/
theorem claim_C2_transcript_invariant :
    (∀ s : InterviewSession, ReachableM s →
      ∀ (a : String) (gen : Option String) (now : String) (s1 : InterviewSession)
        (o : AnswerOutcome) (b : Bool),
      submitMedical s a gen now = .ok (s1, o, b) →
      s1.status = InterviewStatus.active →
      s1.conversation_history.length = s1.question_number - 1 ∧
        s1.conversation_history.length = s.conversation_history.length + 1 ∧
        s1.question_number = s.question_number + 1) ∧
    (∀ s : InterviewSession, ReachableF s →
      ∀ (a : String) (gen : Option String) (now : String) (s1 : InterviewSession)
        (o : AnswerOutcome) (b : Bool),
      submitFollowup s a gen now = .ok (s1, o, b) →
      s1.status = InterviewStatus.active →
      s1.conversation_history.length = s1.question_number - 1 ∧
        s1.conversation_history.length = s.conversation_history.length + 1 ∧
        s1.question_number = s.question_number + 1) := by
  constructor
  · intro s hr a gen now s1 o b heq hact
    have hlen := reachM_len s1 (ReachableM.step s a gen now s1 o b hr heq) hact
    obtain ⟨hq, hh, -, -, -⟩ := submitMedical_active s a gen now s1 o b heq hact
    refine ⟨by omega, ?_, hq⟩
    simp [hh]
  · intro s hr a gen now s1 o b heq hact
    have hlen := reachF_len s1 (ReachableF.step s a gen now s1 o b hr heq) hact
    obtain ⟨hq, hh, -, -, -⟩ := submitFollowup_active s a gen now s1 o b heq hact
    refine ⟨by omega, ?_, hq⟩
    simp [hh]

/-- Witness for C2 at freshly started sessions of both kinds: after the
first answer the session is still ACTIVE and the transcript length equals
`question_number - 1`. -/
theorem claim_C2_witness :
    c2TripM.1.status = InterviewStatus.active ∧
    c2TripM.1.conversation_history.length = c2TripM.1.question_number - 1 ∧
    c2TripF.1.status = InterviewStatus.active ∧
    c2TripF.1.conversation_history.length = c2TripF.1.question_number - 1 :=
  ⟨by decide,
   (claim_C2_transcript_invariant.1 c2SessM
     (ReachableM.start "c2m" "p" (some "Q1") "t0") "I have a headache" (some "Q2")
     "t1" c2TripM.1 c2TripM.2.1 c2TripM.2.2 rfl (by decide)).1,
   by decide,
   (claim_C2_transcript_invariant.2 c2SessF
     (ReachableF.start "c2f" "p" (some "F1") "t0") "I have a headache" (some "F2")
     "t1" c2TripF.1 c2TripF.2.1 c2TripF.2.2 rfl (by decide)).1⟩

/-- Reachable first-visit sessions never count more unknowns than recorded
answers. -/
theorem reachM_unknown (s : InterviewSession) (h : ReachableM s) :
    s.unknown_count ≤ s.conversation_history.length := by
  induction h with
  | start sid pid gen now => cases gen <;> simp [startMedical]
  | step s a gen now s1 o b hr heq ih =>
    obtain ⟨-, -, hh, hu, -, -⟩ := submitMedical_ok_shape s a gen now s1 o b heq
    rw [hh, hu]
    have := recordUnknown_le_succ s.unknown_count a
    simp
    omega

/-- Reachable follow-up sessions never count more unknowns than recorded
answers. -/
theorem reachF_unknown (s : InterviewSession) (h : ReachableF s) :
    s.unknown_count ≤ s.conversation_history.length := by
  induction h with
  | start sid pid gen now => simp [startFollowup]
  | step s a gen now s1 o b hr heq ih =>
    obtain ⟨-, -, hh, hu, -, -⟩ := submitFollowup_ok_shape s a gen now s1 o b heq
    rw [hh, hu]
    have := recordUnknown_le_succ s.unknown_count a
    simp
    omega

/-- C10: on every reachable session of either kind, `unknown_count` is at
most the number of recorded answers; each submit-answer call moves
`unknown_count` up by at most one and never down, and an answer containing
both uncertainty phrases still adds exactly one. -/
theorem claim_C10_unknown_bound :
    (∀ s : InterviewSession, ReachableM s →
      s.unknown_count ≤ s.conversation_history.length) ∧
    (∀ s : InterviewSession, ReachableF s →
      s.unknown_count ≤ s.conversation_history.length) ∧
    (∀ (s : InterviewSession) (a : String) (gen : Option String) (now : String)
        (s1 : InterviewSession) (o : AnswerOutcome) (b : Bool),
      submitMedical s a gen now = .ok (s1, o, b) →
      s.unknown_count ≤ s1.unknown_count ∧ s1.unknown_count ≤ s.unknown_count + 1 ∧
        (strContains (pyLower a) dont_know_phrase = true →
          strContains (pyLower a) "not sure" = true →
          s1.unknown_count = s.unknown_count + 1)) ∧
    (∀ (s : InterviewSession) (a : String) (gen : Option String) (now : String)
        (s1 : InterviewSession) (o : AnswerOutcome) (b : Bool),
      submitFollowup s a gen now = .ok (s1, o, b) →
      s.unknown_count ≤ s1.unknown_count ∧ s1.unknown_count ≤ s.unknown_count + 1 ∧
        (strContains (pyLower a) dont_know_phrase = true →
          strContains (pyLower a) "not sure" = true →
          s1.unknown_count = s.unknown_count + 1)) := by
  refine ⟨reachM_unknown, reachF_unknown, ?_, ?_⟩
  · intro s a gen now s1 o b heq
    obtain ⟨-, -, -, hu, -, -⟩ := submitMedical_ok_shape s a gen now s1 o b heq
    rw [hu]
    refine ⟨recordUnknown_ge _ _, recordUnknown_le_succ _ _, ?_⟩
    intro h1 h2
    simp [recordUnknown, h1, h2]
  · intro s a gen now s1 o b heq
    obtain ⟨-, -, -, hu, -, -⟩ := submitFollowup_ok_shape s a gen now s1 o b heq
    rw [hu]
    refine ⟨recordUnknown_ge _ _, recordUnknown_le_succ _ _, ?_⟩
    intro h1 h2
    simp [recordUnknown, h1, h2]

/-- Witness for C10: a freshly started session satisfies the bound, and an
answer containing both uncertainty phrases adds exactly one unknown. -/
theorem claim_C10_witness :
    c10Sess.unknown_count ≤ c10Sess.conversation_history.length ∧
    strContains (pyLower ("I don" ++ apost ++ "t know, not sure")) dont_know_phrase = true ∧
    strContains (pyLower ("I don" ++ apost ++ "t know, not sure")) "not sure" = true ∧
    c10Trip.1.unknown_count = c10Sess.unknown_count + 1 :=
  ⟨claim_C10_unknown_bound.1 c10Sess (ReachableM.start "c10" "p" none "t0"),
   by decide, by decide,
   (claim_C10_unknown_bound.2.2.1 c10Sess ("I don" ++ apost ++ "t know, not sure")
     (some "Q2") "t1" c10Trip.1 c10Trip.2.1 c10Trip.2.2 rfl).2.2 (by decide) (by decide)⟩

/-- C5: a follow-up answer recorded at question_number >= 4 whose transcript
(after the append) has both a treatment-topic question and a
symptom/feel-topic question completes the interview even below the question
budget; a first-visit submit in the same situation continues instead, so
the early-completion rule never applies to first-visit sessions. -/
theorem claim_C5_followup_early_completion :
    (∀ (s : InterviewSession) (a : String) (gen : Option String) (now : String)
        (s1 : InterviewSession) (o : AnswerOutcome) (b : Bool),
      submitFollowup s a gen now = .ok (s1, o, b) →
      4 ≤ s.question_number →
      hasTreatmentInfo (s.conversation_history ++ [recordedQAF s a now]) = true →
      hasSymptomInfo (s.conversation_history ++ [recordedQAF s a now]) = true →
      s.question_number < 6 →
      s1.status = InterviewStatus.completed ∧ o.next_question = none ∧
        o.interview_complete = true ∧ b = false) ∧
    (∀ (s : InterviewSession) (a q : String) (now : String)
        (s1 : InterviewSession) (o : AnswerOutcome) (b : Bool),
      submitMedical s a (some q) now = .ok (s1, o, b) →
      s.question_number < s.max_questions →
      recordUnknown s.unknown_count a < s.max_unknowns →
      strContains q "ASSESSMENT_READY" = false →
      4 ≤ s.question_number →
      hasTreatmentInfo (s.conversation_history ++ [recordedQAM s a now]) = true →
      hasSymptomInfo (s.conversation_history ++ [recordedQAM s a now]) = true →
      s1.status = InterviewStatus.active ∧ o.next_question = some q ∧
        o.interview_complete = false) := by
  constructor
  · intro s a gen now s1 o b h h4 ht hs hlt
    revert h4 ht hs hlt
    simp only [submitFollowup] at h
    split at h
    · intro _ _ _ _
      simp at h
    split at h
    · intro _ _ _ _
      simp at h
    split at h
    · intro _ _ _ _
      obtain ⟨h1, h2, h3⟩ := by simpa using h
      subst h1 h2 h3
      simp [completionOutcomeF]
    next hcond =>
      intro h4 ht hs hlt
      exact absurd (Or.inr (Or.inr ⟨h4, ht, hs⟩)) hcond
  · intro s a q now s1 o b h hq hu hns h4 ht hs
    revert hq hu hns h4 ht hs
    simp only [submitMedical] at h
    split at h
    · intro _ _ _ _ _ _
      simp at h
    split at h
    next hst =>
      · intro _ _ _ _ _ _
        simp at h
    next hst =>
      split at h
      next hcond =>
        intro hq hu _ _ _ _
        rcases hcond with hc | hc <;> omega
      next =>
        split at h
        next hsent =>
          intro _ _ hns _ _ _
          simp only [Option.getD_some] at hsent
          simp [hns] at hsent
        next =>
          intro _ _ _ _ _ _
          obtain ⟨h1, h2, h3⟩ := by simpa using h
          subst h1 h2 h3
          refine ⟨by simpa using hst, ?_, rfl⟩
          simp [continuationOutcomeM]

/-- Witness for C5: the follow-up session `c5SessF` completes at question 4
with max_questions = 6, while the first-visit session `c5SessM` with the
same transcript keeps going. -/
theorem claim_C5_witness :
    (4 ≤ c5SessF.question_number ∧ c5SessF.question_number < 6) ∧
    (c5TripF.1.status = InterviewStatus.completed ∧
      c5TripF.2.1.next_question = none ∧ c5TripF.2.1.interview_complete = true ∧
      c5TripF.2.2 = false) ∧
    (c5TripM.1.status = InterviewStatus.active ∧
      c5TripM.2.1.next_question = some "Q5" ∧
      c5TripM.2.1.interview_complete = false) :=
  ⟨⟨by decide, by decide⟩,
   claim_C5_followup_early_completion.1 c5SessF "better" (some "Q5") "t4"
     c5TripF.1 c5TripF.2.1 c5TripF.2.2 rfl (by decide) (by decide) (by decide)
     (by decide),
   claim_C5_followup_early_completion.2 c5SessM "better" "Q5" "t4"
     c5TripM.1 c5TripM.2.1 c5TripM.2.2 rfl (by decide) (by decide) (by decide)
     (by decide) (by decide) (by decide)⟩

/-- C6: when a first-visit submit passes the stop-condition check and the
generated question text contains the sentinel `ASSESSMENT_READY`, the
session is finalized COMPLETED, the outcome carries no next question (the
sentinel question is never surfaced) with completion_percent = 100, and the
incremented question counter is kept. -/
theorem claim_C6_assessment_ready_sentinel :
    ∀ (s : InterviewSession) (a q : String) (now : String)
      (s1 : InterviewSession) (o : AnswerOutcome) (b : Bool),
    submitMedical s a (some q) now = .ok (s1, o, b) →
    s.question_number < s.max_questions →
    recordUnknown s.unknown_count a < s.max_unknowns →
    strContains q "ASSESSMENT_READY" = true →
    s1.status = InterviewStatus.completed ∧ o.next_question = none ∧
      o.completion_percent = 100 ∧ o.interview_complete = true ∧ b = true ∧
      s1.question_number = s.question_number + 1 := by
  intro s a q now s1 o b h hq hu hsent
  revert hq hu hsent
  simp only [submitMedical] at h
  split at h
  · intro _ _ _
    simp at h
  split at h
  · intro _ _ _
    simp at h
  split at h
  next hcond =>
    intro hq hu _
    rcases hcond with hc | hc <;> omega
  next =>
    split at h
    next =>
      intro _ _ _
      obtain ⟨h1, h2, h3⟩ := by simpa using h
      subst h1 h2 h3
      simp [completionOutcomeM]
    next hnsent =>
      intro _ _ hsent
      simp only [Option.getD_some] at hnsent
      exact absurd hsent hnsent

/-- Witness for C6: a concrete mid-interview submit whose generated question
carries the sentinel completes without surfacing it. -/
theorem claim_C6_witness :
    (c6Sess.question_number < c6Sess.max_questions ∧
      recordUnknown c6Sess.unknown_count "ok" < c6Sess.max_unknowns ∧
      strContains "blah ASSESSMENT_READY blah" "ASSESSMENT_READY" = true) ∧
    (c6Trip.1.status = InterviewStatus.completed ∧
      c6Trip.2.1.next_question = none ∧ c6Trip.2.1.completion_percent = 100 ∧
      c6Trip.2.1.interview_complete = true ∧ c6Trip.2.2 = true ∧
      c6Trip.1.question_number = c6Sess.question_number + 1) :=
  ⟨⟨by decide, by decide, by decide⟩,
   claim_C6_assessment_ready_sentinel c6Sess "ok" "blah ASSESSMENT_READY blah"
     "t1" c6Trip.1 c6Trip.2.1 c6Trip.2.2 rfl (by decide) (by decide) (by decide)⟩

/-- C8: starting a first-visit interview with a failing (or never
initialised) question generator still succeeds: the outcome carries the
fixed fallback opening question, and the stored session is ACTIVE with
question_number = 1, unknown_count = 0 and an empty transcript. -/
theorem claim_C8_start_fallback :
    ∀ (sid pid now : String),
      (startMedical sid pid none now).2.success = true ∧
      (startMedical sid pid none now).2.question =
        "What is your main health concern or symptom that brought you here today?" ∧
      (startMedical sid pid none now).2.interview_complete = false ∧
      (startMedical sid pid none now).1.status = InterviewStatus.active ∧
      (startMedical sid pid none now).1.question_number = 1 ∧
      (startMedical sid pid none now).1.unknown_count = 0 ∧
      (startMedical sid pid none now).1.conversation_history = [] := by
  intro sid pid now
  exact ⟨rfl, rfl, rfl, rfl, rfl, rfl, rfl⟩

/-- The pydantic layer rejects an empty raw answer before the first-visit
endpoint body runs. -/
theorem submitMedical_empty (s : InterviewSession) (gen : Option String)
    (now : String) : submitMedical s "" gen now = .error .validationError := by
  simp [submitMedical, show pyLen "" < 1 from by decide]

/-- The pydantic layer rejects an empty raw answer before the follow-up
endpoint body runs. -/
theorem submitFollowup_empty (s : InterviewSession) (gen : Option String)
    (now : String) : submitFollowup s "" gen now = .error .validationError := by
  simp [submitFollowup, show pyLen "" < 1 from by decide]

/-- A valid answer on a non-ACTIVE session fails the first-visit state
check. -/
theorem submitMedical_inactive (s : InterviewSession) (a : String)
    (gen : Option String) (now : String) (ha : 1 ≤ pyLen a)
    (hst : s.status ≠ InterviewStatus.active) :
    submitMedical s a gen now = .error .invalidState := by
  unfold submitMedical
  rw [if_neg (by omega), if_pos hst]

/-- A valid answer on a non-ACTIVE session fails the follow-up state
check. -/
theorem submitFollowup_inactive (s : InterviewSession) (a : String)
    (gen : Option String) (now : String) (ha : 1 ≤ pyLen a)
    (hst : s.status ≠ InterviewStatus.active) :
    submitFollowup s a gen now = .error .invalidState := by
  unfold submitFollowup
  rw [if_neg (by omega), if_pos hst]

/-- A valid answer on an ACTIVE first-visit session always succeeds and
appends the trimmed entry. -/
theorem submitMedical_records (s : InterviewSession) (a : String)
    (gen : Option String) (now : String) (ha : 1 ≤ pyLen a)
    (hact : s.status = InterviewStatus.active) :
    ∃ (s1 : InterviewSession) (o : AnswerOutcome) (b : Bool),
      submitMedical s a gen now = .ok (s1, o, b) ∧
        s1.conversation_history = s.conversation_history ++ [recordedQAM s a now] := by
  simp only [submitMedical]
  rw [if_neg (by omega), if_neg (by simp [hact])]
  by_cases hth : s.question_number ≥ s.max_questions ∨
      recordUnknown s.unknown_count a ≥ s.max_unknowns
  · rw [if_pos hth]
    exact ⟨_, _, _, rfl, rfl⟩
  · rw [if_neg hth]
    by_cases hsent : strContains
        (gen.getD "Can you tell me more about your symptoms?") "ASSESSMENT_READY" = true
    · rw [if_pos hsent]
      exact ⟨_, _, _, rfl, rfl⟩
    · rw [if_neg hsent]
      exact ⟨_, _, _, rfl, rfl⟩

/-- A valid answer on an ACTIVE follow-up session always succeeds and
appends the trimmed entry. -/
theorem submitFollowup_records (s : InterviewSession) (a : String)
    (gen : Option String) (now : String) (ha : 1 ≤ pyLen a)
    (hact : s.status = InterviewStatus.active) :
    ∃ (s1 : InterviewSession) (o : AnswerOutcome) (b : Bool),
      submitFollowup s a gen now = .ok (s1, o, b) ∧
        s1.conversation_history = s.conversation_history ++ [recordedQAF s a now] := by
  simp only [submitFollowup]
  rw [if_neg (by omega), if_neg (by simp [hact])]
  by_cases hth : s.question_number ≥ 6 ∨ recordUnknown s.unknown_count a ≥ 3 ∨
      (s.question_number ≥ 4 ∧
        hasTreatmentInfo (s.conversation_history ++ [recordedQAF s a now]) = true ∧
        hasSymptomInfo (s.conversation_history ++ [recordedQAF s a now]) = true)
  · rw [if_pos hth]
    exact ⟨_, _, _, rfl, rfl⟩
  · rw [if_neg hth]
    exact ⟨_, _, _, rfl, rfl⟩

/-- C9 counterexample: a single-space answer on an ACTIVE session is NOT
rejected — the call succeeds and an entry whose trimmed answer is the empty
string is appended to the transcript, refuting "empty after trimming fails
with a ValidationError and nothing is appended". -/
theorem claim_C9_counterexample :
    pyTrim " " = "" ∧
    exceptOk (submitMedical c9Sess " " (some "Q2") "t1") = some c9Trip ∧
    c9Trip.1.conversation_history.length = 1 ∧
    c9Trip.1.conversation_history.map QuestionAnswer.answer = [""] := by
  refine ⟨by decide, rfl, by decide, by decide⟩

/-- C9 (amended): the validation counts raw, untrimmed characters
(`min_length=1`): an empty answer fails with a ValidationError on either
endpoint and leaves the stored session unchanged; a non-empty answer on a
non-ACTIVE session fails with an InvalidStateError and leaves the stored
session unchanged; and a whitespace-only answer on an ACTIVE session passes
validation and is recorded (with trimmed text). -/
theorem claim_C9_amended_validation :
    (∀ (s : InterviewSession) (gen : Option String) (now : String),
      submitMedical s "" gen now = .error .validationError) ∧
    (∀ (s : InterviewSession) (gen : Option String) (now : String),
      submitFollowup s "" gen now = .error .validationError) ∧
    (∀ (s : InterviewSession) (a : String) (gen : Option String) (now : String),
      1 ≤ pyLen a → s.status ≠ InterviewStatus.active →
      submitMedical s a gen now = .error .invalidState) ∧
    (∀ (s : InterviewSession) (a : String) (gen : Option String) (now : String),
      1 ≤ pyLen a → s.status ≠ InterviewStatus.active →
      submitFollowup s a gen now = .error .invalidState) ∧
    (∀ (s : InterviewSession) (gen : Option String) (now : String),
      runM s [("", gen, now)] = (s, false)) ∧
    (∀ (s : InterviewSession) (a : String) (gen : Option String) (now : String),
      1 ≤ pyLen a → s.status ≠ InterviewStatus.active →
      runM s [(a, gen, now)] = (s, false)) ∧
    (∀ (s : InterviewSession) (a : String) (gen : Option String) (now : String),
      1 ≤ pyLen a → s.status = InterviewStatus.active →
      ∃ (s1 : InterviewSession) (o : AnswerOutcome) (b : Bool),
        submitMedical s a gen now = .ok (s1, o, b) ∧
          s1.conversation_history =
            s.conversation_history ++ [recordedQAM s a now]) ∧
    (∀ (s : InterviewSession) (a : String) (gen : Option String) (now : String),
      1 ≤ pyLen a → s.status = InterviewStatus.active →
      ∃ (s1 : InterviewSession) (o : AnswerOutcome) (b : Bool),
        submitFollowup s a gen now = .ok (s1, o, b) ∧
          s1.conversation_history =
            s.conversation_history ++ [recordedQAF s a now]) := by
  refine ⟨submitMedical_empty, submitFollowup_empty, submitMedical_inactive,
    submitFollowup_inactive, ?_, ?_, submitMedical_records, submitFollowup_records⟩
  · intro s gen now
    simp [runM, submitMedical_empty s gen now]
  · intro s a gen now ha hst
    simp [runM, submitMedical_inactive s a gen now ha hst]

/-- Witness for C9 (amended) at concrete sessions: the empty answer is
rejected, a completed session rejects a valid answer, and a single space on
an ACTIVE session is recorded with empty trimmed text. -/
theorem claim_C9_witness :
    submitMedical c9Sess "" (some "Q2") "t1" = .error .validationError ∧
    (1 ≤ pyLen "x" ∧ c9SessDone.status ≠ InterviewStatus.active) ∧
    submitMedical c9SessDone "x" none "t1" = .error .invalidState ∧
    (1 ≤ pyLen " " ∧ c9Sess.status = InterviewStatus.active) ∧
    c9Trip.1.conversation_history =
      c9Sess.conversation_history ++ [recordedQAM c9Sess " " "t1"] := by
  refine ⟨claim_C9_amended_validation.1 c9Sess (some "Q2") "t1",
    ⟨by decide, by decide⟩,
    claim_C9_amended_validation.2.2.1 c9SessDone "x" none "t1" (by decide) (by decide),
    ⟨by decide, by decide⟩, ?_⟩
  obtain ⟨s1, o, b, heq, hh⟩ :=
    claim_C9_amended_validation.2.2.2.2.2.2.1 c9Sess " " (some "Q2") "t1"
      (by decide) (by decide)
  have hx : c9Trip = (s1, o, b) := by
    simp [c9Trip, okTrip, heq, exceptOk]
  rw [hx]
  exact hh

/-- C4 counterexample: with roster departments `["Urology"]` and input
`"heart"`, step 1 does not match and the synonym table's exact lookup maps
`"heart"` to `"Cardiology"`, so the claimed resolution order (step 2 an
unguarded table lookup, first match wins) returns `some "Cardiology"` — but
the source returns `none`, because its step 2 only matches when the mapped
department is present in the roster. -/
theorem claim_C4_counterexample :
    (["Urology"].find? fun d => pyLower d == pyLower "heart") = none ∧
    (specialty_mappings.find? fun p => p.1 == pyLower "heart").map Prod.snd =
      some "Cardiology" ∧
    match_department_claim ["Urology"] "heart" = some "Cardiology" ∧
    find_matching_department ["Urology"] "heart" = none := by
  refine ⟨by decide, by decide, by decide, by decide⟩

/-- C4 (amended): `find_matching_department` resolves exactly in the claimed
order with the first match winning — (1) case-insensitive exact roster
match, (2) case-insensitive exact synonym-table lookup *whose mapped
department is present in the roster* (falling through otherwise), (3)
synonym-keyword containment mapping to a roster department, (4) prefix
match with length difference at most 3 — and returns none when no step
matches. -/
theorem claim_C4_amended_resolution_order :
    ∀ (depts : List String) (ai : String),
      find_matching_department depts ai = match_department_amended depts ai := by
  intro depts ai
  simp only [find_matching_department, match_department_amended]
  cases h1 : depts.find? fun d => pyLower d == pyLower ai with
  | some d => simp [Option.orElse]
  | none =>
    simp only [Option.orElse]
    cases h2 : specialty_mappings.find? fun p => p.1 == pyLower ai with
    | some p =>
      by_cases hc : p.2 ∈ depts
      · simp [hc, Option.orElse]
      · cases h3 : specialty_mappings.find? fun p =>
            strContains (pyLower ai) p.1 && depts.contains p.2 with
        | some p3 => simp [hc, h3, Option.orElse]
        | none =>
          cases h4 : depts.find? fun d =>
              pyStartsWith (pyLower ai) (pyLower d) &&
                decide (pyLen (pyLower ai) - pyLen (pyLower d) ≤ 3) with
          | some d4 => simp [hc, h3, h4, Option.orElse]
          | none => simp [hc, h3, h4, Option.orElse]
    | none =>
      simp only [h2, Option.orElse]
      cases h3 : specialty_mappings.find? fun p =>
          strContains (pyLower ai) p.1 && depts.contains p.2 with
      | some p3 => simp [h3, Option.orElse]
      | none =>
        cases h4 : depts.find? fun d =>
            pyStartsWith (pyLower ai) (pyLower d) &&
              decide (pyLen (pyLower ai) - pyLen (pyLower d) ≤ 3) with
        | some d4 => simp [h3, h4]
        | none => simp [h3, h4]

/-- C3 counterexample: in the conflict case the result's message names the
patient's doctor and the AI-matched department, but NOT the matched
department's first doctor (Dr. Bob), refuting the part of the claim that
says the message presents "the AI-matched department's first doctor". -/
theorem claim_C3_counterexample :
    c3Conflict.recommendation_type = "conflict_resolution" ∧
    c3Conflict.matched_department = some "Orthopedics" ∧
    c3Conflict.recommended_doctors.head? =
      some { id := "2", name := "Bob", department := "Orthopedics" } ∧
    strContains c3Conflict.message "Bob" = false := by
  refine ⟨by decide, by decide, by decide, by decide⟩

/-- C3 (amended): when the chosen doctor is found by exact case-insensitive
name match and the AI suggestion resolves to a matched department, equality
of departments yields `perfect_match`; inequality yields
`conflict_resolution` with a message presenting the patient's doctor with
their department and the AI-matched department by name (the department's
first doctor is not named in the message — it is carried separately in
`recommended_doctors`). -/
theorem claim_C3_amended_reconciliation :
    ∀ (roster : List Doctor) (ai chosenName : String) (pd : Doctor) (md : String),
      1 ≤ pyLen chosenName →
      find_doctor_by_name roster chosenName = some pd →
      find_matching_department (deptKeys roster) ai = some md →
      (pd.department = md →
        (get_doctor_recommendations roster ai (some chosenName)).recommendation_type =
          "perfect_match") ∧
      (pd.department ≠ md →
        (get_doctor_recommendations roster ai (some chosenName)).recommendation_type =
            "conflict_resolution" ∧
          (get_doctor_recommendations roster ai (some chosenName)).message =
            "Two options available: 1) Your choice: Dr. " ++ pd.name ++ " (" ++
              pd.department ++ ") 2) AI recommendation: " ++ md ++ " department") := by
  intro roster ai chosenName pd md hlen hfind hmatch
  simp only [get_doctor_recommendations, hmatch, hfind]
  rw [if_neg (by omega)]
  constructor
  · intro heq
    rw [if_pos heq]
  · intro hne
    rw [if_neg hne]
    exact ⟨rfl, rfl⟩

/-- Witness for C3 (amended) on the two-doctor roster: choosing Dr. Bob
while the AI suggests Orthopedics is a perfect match; choosing Dr. Alice
while the AI suggests Orthopedics is a conflict. -/
theorem claim_C3_witness :
    (1 ≤ pyLen "Alice" ∧
      find_doctor_by_name rosterAB "Alice" =
        some { id := "1", name := "Alice", department := "Cardiology" } ∧
      find_matching_department (deptKeys rosterAB) "Orthopedics" =
        some "Orthopedics") ∧
    c3Conflict.recommendation_type = "conflict_resolution" ∧
    (get_doctor_recommendations rosterAB "Orthopedics" (some "Bob")).recommendation_type =
      "perfect_match" :=
  ⟨⟨by decide, by decide, by decide⟩,
   ((claim_C3_amended_reconciliation rosterAB "Orthopedics" "Alice"
       { id := "1", name := "Alice", department := "Cardiology" } "Orthopedics"
       (by decide) (by decide) (by decide)).2 (by decide)).1,
   (claim_C3_amended_reconciliation rosterAB "Orthopedics" "Bob"
       { id := "2", name := "Bob", department := "Orthopedics" } "Orthopedics"
       (by decide) (by decide) (by decide)).1 (by decide)⟩

/-- C7 counterexample: with no department match but a chosen doctor found in
the roster, the result is `patient_choice_only`, not `reception_referral`,
refuting the claim for "every reconciliation call where the AI-suggested
department matches none of the roster's departments". -/
theorem claim_C7_counterexample :
    find_matching_department (deptKeys rosterA) "Oncology" = none ∧
    c7Choice.recommendation_type = "patient_choice_only" ∧
    c7Choice.recommendation_type ≠ "reception_referral" := by
  refine ⟨by decide, by decide, by decide⟩

/-- C7 (amended): when the AI-suggested department matches none of the
roster's departments AND the patient's chosen doctor is absent, empty, or
not found in the roster, the result is `reception_referral` with
`department_available = false`, no recommended doctors, and the
reception-directing message. -/
theorem claim_C7_amended_reception_referral :
    ∀ (roster : List Doctor) (ai : String) (chosen : Option String),
      find_matching_department (deptKeys roster) ai = none →
      (∀ c, chosen = some c → 1 ≤ pyLen c → find_doctor_by_name roster c = none) →
      (get_doctor_recommendations roster ai chosen).recommendation_type =
          "reception_referral" ∧
        (get_doctor_recommendations roster ai chosen).department_available = false ∧
        (get_doctor_recommendations roster ai chosen).recommended_doctors = [] ∧
        (get_doctor_recommendations roster ai chosen).message =
          "Please visit hospital reception" := by
  intro roster ai chosen hmatch hfound
  cases chosen with
  | none =>
    simp [get_doctor_recommendations, hmatch]
  | some c =>
    simp only [get_doctor_recommendations, hmatch]
    by_cases hz : pyLen c = 0
    · rw [if_pos hz]
      simp
    · rw [if_neg hz, hfound c rfl (by omega)]
      simp

/-- Witness for C7 (amended): `"Oncology"` against the one-doctor roster
with no chosen doctor is routed to reception. -/
theorem claim_C7_witness :
    find_matching_department (deptKeys rosterA) "Oncology" = none ∧
    c7Reception.recommendation_type = "reception_referral" ∧
    c7Reception.department_available = false ∧
    c7Reception.recommended_doctors = [] ∧
    c7Reception.message = "Please visit hospital reception" :=
  ⟨by decide,
   (claim_C7_amended_reception_referral rosterA "Oncology" none (by decide)
     (fun c hc h1 => Option.noConfusion hc)).1,
   (claim_C7_amended_reception_referral rosterA "Oncology" none (by decide)
     (fun c hc h1 => Option.noConfusion hc)).2.1,
   (claim_C7_amended_reception_referral rosterA "Oncology" none (by decide)
     (fun c hc h1 => Option.noConfusion hc)).2.2.1,
   (claim_C7_amended_reception_referral rosterA "Oncology" none (by decide)
     (fun c hc h1 => Option.noConfusion hc)).2.2.2⟩
